import Mathlib

/-!
Shallow embedding of the `demo_mcp_paysim` repository.

Source files embedded here:
* `src/server/mcp_server_paysim.py` — `resource_read`, `tool_get_account_kpi`,
  `tool_detect_suspicious`.  The SQL queries over the `transactions` table are
  modelled as list computations over a `List Transaction` standing for the
  table contents; SQL `NUMERIC`/`float8` amounts are modelled as `ℚ`
  (exact arithmetic — no claim below depends on binary rounding).
* `src/ui/app.py` — `fmt_eur`, `risk_label`, `build_insights` (the risk
  scoring engine) with its inner helper `add_rule`.

Python `int` is modelled as `ℤ`, row counts coming from `COUNT(*)` as `ℕ`
coerced into the `ℤ`-valued KPI fields, and Python `None`-able arguments as
`Option`.
-/

namespace PaySim

/-- A row of the `transactions` table (see the `SELECT` in the
`transaction/` branch of `resource_read`, and `src/loader/load_paysim.py`). -/
structure Transaction where
  id : Nat
  step : Int
  type : String
  amount : ℚ
  name_orig : String
  oldbalance_org : ℚ
  newbalance_org : ℚ
  name_dest : String
  oldbalance_dest : ℚ
  newbalance_dest : ℚ
  is_fraud : Bool
  is_flagged_fraud : Bool
deriving DecidableEq, Repr

/-- One match dict produced by `tool_detect_suspicious` (the seven selected
columns of its SQL query). -/
structure MatchRow where
  id : Nat
  step : Int
  type : String
  amount : ℚ
  name_orig : String
  name_dest : String
  is_fraud : Bool
deriving DecidableEq, Repr

/-- The dict returned by `tool_detect_suspicious`. -/
structure DetectResult where
  name : String
  min_amount : ℚ
  window_steps : Int
  max_rows : Nat
  «matches» : List MatchRow
  note : String
deriving DecidableEq, Repr

/-- The `out` sub-dict of the KPI returned by `tool_get_account_kpi`. -/
structure KpiOut where
  nb_out : Int
  total_out : ℚ
  avg_out_amount : ℚ
  fraud_out : Int
deriving DecidableEq, Repr

/-- The `in` sub-dict of the KPI returned by `tool_get_account_kpi`. -/
structure KpiIn where
  nb_in : Int
  total_in : ℚ
  avg_in_amount : ℚ
deriving DecidableEq, Repr

/-- One entry of `top_out_types` (`SELECT type, COUNT(*) ... GROUP BY type`). -/
structure TopType where
  type : String
  cnt : Nat
deriving DecidableEq, Repr

/-- The dict returned by `tool_get_account_kpi`. -/
structure AccountKPI where
  name : String
  step_from : Int
  step_to : Int
  out : KpiOut
  «in» : KpiIn
  top_out_types : List TopType
deriving DecidableEq, Repr

/-- Python `str.upper()`, as used by `build_insights` on the transaction
type (`(tx.get("type") or "").upper()`), modelled characterwise. -/
def py_upper (s : String) : String := ⟨s.data.map Char.toUpper⟩

/-- `fmt_eur` of `src/ui/app.py`.  The Python function renders a float with
thousands separators and two decimals; no claim depends on the rendered text,
so the numeric value is rendered as the decimal string of the rational. -/
def fmt_eur (x : ℚ) : String := toString x ++ " €"

/-- `risk_label` of `src/ui/app.py` (lines 235-240). -/
def risk_label (score : Int) : String :=
  if score ≥ 80 then "Élevé"
  else if score ≥ 50 then "Modéré"
  else "Faible"

/-- One entry of the `breakdown` list built by `build_insights`. -/
structure BreakdownEntry where
  rule : String
  points : Int
  triggered : Bool
  why : String
deriving DecidableEq, Repr

/-- The dict returned by `build_insights`. -/
structure Insights where
  score : Int
  title : String
  bullets : List String
  next_actions : List String
  breakdown : List BreakdownEntry
  note : String
deriving DecidableEq, Repr

/-- The inner `add_rule` closure of `build_insights` (app.py lines 268-272):
it threads the mutable `(score, breakdown)` state explicitly. -/
def add_rule (st : Int × List BreakdownEntry) (rule : String) (pts : Int)
    (triggered : Bool) (why : String) : Int × List BreakdownEntry :=
  (if triggered then st.1 + pts else st.1,
   st.2 ++ [⟨rule, if triggered then pts else 0, triggered, why⟩])

/-- `build_insights` of `src/ui/app.py` (lines 243-410), the risk scoring
engine.  Dict lookups with `or`-defaults become field reads; the Python
`or 200000` / `or 10` fallbacks (triggered when the field is falsy, i.e. `0`)
are kept. -/
def build_insights (kpi : AccountKPI) (suspicious : DetectResult)
    (tx : Option Transaction) : Insights :=
  let nb_out := kpi.out.nb_out
  let total_out := kpi.out.total_out
  let avg_out := kpi.out.avg_out_amount
  let fraud_out := kpi.out.fraud_out
  let nb_in := kpi.«in».nb_in
  let total_in := kpi.«in».total_in
  let «matches» := suspicious.«matches»
  let min_amount : ℚ := if suspicious.min_amount = 0 then 200000 else suspicious.min_amount
  let window_steps : Int := if suspicious.window_steps = 0 then 10 else suspicious.window_steps
  let n_matches := «matches».length
  let st1 := add_rule (0, []) "Concentration des sorties" 25
      (decide (nb_out ≤ 2 ∧ total_out ≥ min_amount))
      s!"nb_out ≤ 2 et total_out ≥ seuil ({fmt_eur min_amount})"
  let st2 := add_rule st1 "Montant moyen sortant élevé" 20
      (decide (avg_out ≥ min_amount ∧ nb_out > 0))
      s!"avg_out ≥ seuil ({fmt_eur min_amount})"
  let st3 := add_rule st2 "Au moins 1 match détecté" 25
      (decide (n_matches ≥ 1))
      s!"≥ 1 transaction sortante ≥ {fmt_eur min_amount} dans une fenêtre de {window_steps} steps"
  let st4 := add_rule st3 "Plusieurs matchs (≥ 3)" 10
      (decide (n_matches ≥ 3))
      "≥ 3 transactions détectées avec les paramètres de détection"
  let st5 := add_rule st4 "Fraude labellisée (dataset)" 25
      (decide (fraud_out > 0))
      "Au moins une transaction sortante est marquée is_fraud=True (donnée simulée PaySim)"
  let st6 := add_rule st5 "Déséquilibre (aucune entrée)" 10
      (decide (total_in = 0 ∧ total_out > 0))
      "total_in = 0 alors que total_out > 0"
  let tx_points : Int :=
    match tx with
    | none => 0
    | some t =>
      (if t.is_fraud then 15 else 0)
      + (if (py_upper t.type = "TRANSFER" ∨ py_upper t.type = "CASH_OUT")
            ∧ t.oldbalance_org > 0 ∧ t.newbalance_org = 0 then 10 else 0)
      + (if t.amount ≥ min_amount then 10 else 0)
  let tx_reason : List String :=
    match tx with
    | none => []
    | some t =>
      (if t.is_fraud then ["transaction labellisée frauduleuse"] else [])
      ++ (if (py_upper t.type = "TRANSFER" ∨ py_upper t.type = "CASH_OUT")
             ∧ t.oldbalance_org > 0 ∧ t.newbalance_org = 0
          then ["solde vidé sur TRANSFER/CASH_OUT"] else [])
      ++ (if t.amount ≥ min_amount then ["montant ≥ seuil"] else [])
  let st7 := add_rule st6 "Signal sur la transaction consultée" (min tx_points 20)
      (decide (tx.isSome ∧ tx_points > 0))
      (String.intercalate "; " tx_reason)
  let score : Int := min st7.1 100
  let bullets : List String :=
    [s!"Transactions sortantes: **{nb_out}** pour un total de **{fmt_eur total_out}** (moyenne: {fmt_eur avg_out}).",
     s!"Transactions entrantes: **{nb_in}** pour un total de **{fmt_eur total_in}**."]
    ++ (if fraud_out > 0
        then [s!"⚠️ Fraude sortante observée (label dataset): **{fraud_out}** transaction(s)."]
        else [])
    ++ (if n_matches = 0
        then [s!"Aucun transfert sortant > **{fmt_eur min_amount}** détecté dans une fenêtre de **{window_steps} steps**."]
        else [s!"⚠️ **{n_matches}** transfert(s) suspect(s) détecté(s) (seuil: {fmt_eur min_amount}, fenêtre: {window_steps} steps)."])
    ++ (match tx with
        | none => []
        | some t =>
          (if t.is_fraud
           then ["🔴 La transaction consultée est **labellisée frauduleuse** dans le dataset (simulation)."]
           else [])
          ++ (if (py_upper t.type = "TRANSFER" ∨ py_upper t.type = "CASH_OUT")
                 ∧ t.oldbalance_org > 0 ∧ t.newbalance_org = 0
              then ["Pattern: **solde vidé** sur une opération à risque (TRANSFER/CASH_OUT)."]
              else [])
          ++ (if t.amount ≥ min_amount
              then ["Pattern: **montant très élevé** par rapport au seuil de détection."]
              else []))
  let next_actions : List String :=
    if score ≥ 80 then
      ["Mettre le compte en **revue prioritaire** (contrôle manuel).",
       "Vérifier la **cohérence des soldes** (old/new) sur les transferts détectés.",
       "Analyser les **contreparties fréquentes** (name_dest) et la concentration temporelle (steps)."]
    else if score ≥ 50 then
      ["Contrôle ciblé des transferts > seuil et de la **fenêtre de steps**.",
       "Comparer ce compte à des comptes similaires (même type/volumes)."]
    else
      ["Aucun signal fort : surveiller via alerting simple.",
       "Affiner le seuil si tu veux être plus sensible (mais + faux positifs)."]
  let title := s!"Risque global: **{risk_label score}** (score {score}/100)"
  { score := score
    title := title
    bullets := bullets
    next_actions := next_actions
    breakdown := st7.2
    note := "Règles simples de démo (pas de ML) : seuils + fenêtres + patterns explicables." }

/-- The SQL `WHERE` clause of `tool_detect_suspicious`
(`src/server/mcp_server_paysim.py` lines 176-185): outgoing transactions of
the account with `amount >= min_amount` and `type IN ('TRANSFER','CASH_OUT')`,
over the table contents `db`. -/
def detect_candidates (db : List Transaction) (name : String) (min_amount : ℚ) :
    List Transaction :=
  db.filter fun t =>
    decide (t.name_orig = name ∧ t.amount ≥ min_amount
      ∧ (t.type = "TRANSFER" ∨ t.type = "CASH_OUT"))

/-- The comparison realising `ORDER BY amount DESC`.  SQL leaves the order of
equal amounts unspecified; the embedding fixes a deterministic (stable)
insertion sort, which is one admissible execution. -/
def amount_desc (a b : Transaction) : Prop := b.amount ≤ a.amount

instance : DecidableRel amount_desc :=
  fun a b => inferInstanceAs (Decidable (b.amount ≤ a.amount))

instance : IsTotal Transaction amount_desc :=
  ⟨fun a b => le_total b.amount a.amount⟩

instance : IsTrans Transaction amount_desc :=
  ⟨fun _ _ _ h1 h2 => le_trans h2 h1⟩

/-- `tool_detect_suspicious` of `src/server/mcp_server_paysim.py`
(lines 169-208): filter (`WHERE`), sort (`ORDER BY amount DESC`), truncate
(`LIMIT max_rows`), then build the result dict, echoing the parameters. -/
def tool_detect_suspicious (db : List Transaction) (name : String)
    (min_amount : ℚ) (window_steps : Int) (max_rows : Nat) : DetectResult :=
  let rows := (List.insertionSort amount_desc (detect_candidates db name min_amount)).take max_rows
  { name := name
    min_amount := min_amount
    window_steps := window_steps
    max_rows := max_rows
    «matches» := rows.map fun r =>
      { id := r.id, step := r.step, type := r.type, amount := r.amount,
        name_orig := r.name_orig, name_dest := r.name_dest, is_fraud := r.is_fraud }
    note := "Règles simples de démo (pas de ML)." }

/-- `tool_get_account_kpi` of `src/server/mcp_server_paysim.py`
(lines 124-166).  Each `COUNT(*) FILTER` / `SUM(amount) FILTER` aggregate
becomes a filter over `db`; the guarded averages mirror
`(float(total_out) / int(nb_out)) if nb_out else 0.0`. -/
def tool_get_account_kpi (db : List Transaction) (name : String)
    (step_from step_to : Int) : AccountKPI :=
  let outTx := db.filter fun t =>
    decide (t.name_orig = name ∧ step_from ≤ t.step ∧ t.step ≤ step_to)
  let inTx := db.filter fun t =>
    decide (t.name_dest = name ∧ step_from ≤ t.step ∧ t.step ≤ step_to)
  let nb_out := outTx.length
  let total_out := (outTx.map Transaction.amount).sum
  let nb_in := inTx.length
  let total_in := (inTx.map Transaction.amount).sum
  let fraud_out := (outTx.filter fun t => t.is_fraud).length
  let types := (outTx.map Transaction.type).dedup
  let grouped := types.map fun ty =>
    TopType.mk ty (outTx.filter fun t => decide (t.type = ty)).length
  let top_types := (List.insertionSort (fun a b => b.cnt ≤ a.cnt) grouped).take 5
  let avg_out : ℚ := if nb_out = 0 then 0 else total_out / (nb_out : ℚ)
  let avg_in : ℚ := if nb_in = 0 then 0 else total_in / (nb_in : ℚ)
  { name := name
    step_from := step_from
    step_to := step_to
    out := { nb_out := (nb_out : Int), total_out := total_out,
             avg_out_amount := avg_out, fraud_out := (fraud_out : Int) }
    «in» := { nb_in := (nb_in : Int), total_in := total_in, avg_in_amount := avg_in }
    top_out_types := top_types }

/-- The possible return values of `resource_read`
(`src/server/mcp_server_paysim.py` lines 64-121): the account aggregate dict,
a full transaction row, the `{"id": tx_id, "found": False}` dict, and the
final `{"uri": uri, "error": "unknown resource"}` dict. -/
inductive ResourceResult where
  | account (name : String) (nb_out : Nat) (total_out : ℚ)
      (nb_in : Nat) (total_in : ℚ) (fraud_out : Nat)
  | transactionRow (t : Transaction)
  | txNotFound (id : Nat)
  | unknownResource (uri : String)
deriving DecidableEq, Repr

instance {ε α : Type} [DecidableEq ε] [DecidableEq α] : DecidableEq (Except ε α) :=
  fun x y =>
    match x, y with
    | .ok a, .ok b => if h : a = b then .isTrue (by rw [h]) else .isFalse (by simp [h])
    | .error a, .error b => if h : a = b then .isTrue (by rw [h]) else .isFalse (by simp [h])
    | .ok _, .error _ => .isFalse (by simp)
    | .error _, .ok _ => .isFalse (by simp)

/-- True exactly on the `{"found": False}`-style result. -/
def is_not_found_result : ResourceResult → Bool
  | .txNotFound _ => true
  | _ => false

/-- Python `int(s)` on the id part of a `transaction/<id>` uri, on the
character list of the string.  Transaction ids are nonnegative, so only digit
strings are modelled as parsing successfully; on anything else Python raises
`ValueError`, modelled as `none`. -/
def py_int (s : List Char) : Option Nat :=
  if s ≠ [] ∧ s.all Char.isDigit then
    some (s.foldl (fun n c => n * 10 + (c.toNat - 48)) 0)
  else none

/-- `resource_read` of `src/server/mcp_server_paysim.py` (lines 64-121).
`uri.startswith(p)` / `uri.split("/", 1)[1]` are modelled on the character
list of the uri; `int(...)` on a non-numeric id raises `ValueError` in
Python, modelled as `Except.error`.  The `WHERE id=%s ... fetchone()` lookup
becomes `List.find?`. -/
def resource_read (db : List Transaction) (uri : String) :
    Except String ResourceResult :=
  if uri.data.take 8 = "account/".data then
    let name : String := ⟨uri.data.drop 8⟩
    let outTx := db.filter fun t => decide (t.name_orig = name)
    let inTx := db.filter fun t => decide (t.name_dest = name)
    .ok (.account name outTx.length ((outTx.map Transaction.amount).sum)
      inTx.length ((inTx.map Transaction.amount).sum)
      ((outTx.filter fun t => t.is_fraud).length))
  else if uri.data.take 12 = "transaction/".data then
    match py_int (uri.data.drop 12) with
    | none => .error "invalid literal for int"
    | some tx_id =>
      match db.find? fun t => decide (t.id = tx_id) with
      | none => .ok (.txNotFound tx_id)
      | some row => .ok (.transactionRow row)
  else
    .ok (.unknownResource uri)

/-! ### Derived forms of the scoring rules, for the statements below -/

/-- The threshold actually used by `build_insights`: the `min_amount` carried
by the detection result, with the Python `or 200000` fallback on a falsy
(zero) value. -/
abbrev eff_min_amount (s : DetectResult) : ℚ :=
  if s.min_amount = 0 then 200000 else s.min_amount

/-- Trigger of rule R1 (concentrated outflow, 25 points). -/
abbrev trig_r1 (kpi : AccountKPI) (s : DetectResult) : Prop :=
  kpi.out.nb_out ≤ 2 ∧ kpi.out.total_out ≥ eff_min_amount s

/-- Trigger of rule R2 (high average outflow, 20 points). -/
abbrev trig_r2 (kpi : AccountKPI) (s : DetectResult) : Prop :=
  kpi.out.avg_out_amount ≥ eff_min_amount s ∧ kpi.out.nb_out > 0

/-- Trigger of rule R3 (at least one detection match, 25 points). -/
abbrev trig_r3 (s : DetectResult) : Prop := s.«matches».length ≥ 1

/-- Trigger of rule R4 (at least three matches, 10 points). -/
abbrev trig_r4 (s : DetectResult) : Prop := s.«matches».length ≥ 3

/-- Trigger of rule R5 (labeled fraud present, 25 points). -/
abbrev trig_r5 (kpi : AccountKPI) : Prop := kpi.out.fraud_out > 0

/-- Trigger of rule R6 (inflow/outflow imbalance, 10 points). -/
abbrev trig_r6 (kpi : AccountKPI) : Prop :=
  kpi.«in».total_in = 0 ∧ kpi.out.total_out > 0

/-- The R7 sub-point total (`tx_points` in `build_insights`): +15 for a fraud
label, +10 for the balance-drain pattern, +10 for an amount at or above the
threshold; `0` when no transaction is supplied. -/
def tx_points_of (tx : Option Transaction) (min_amount : ℚ) : Int :=
  match tx with
  | none => 0
  | some t =>
    (if t.is_fraud then 15 else 0)
    + (if (py_upper t.type = "TRANSFER" ∨ py_upper t.type = "CASH_OUT")
          ∧ t.oldbalance_org > 0 ∧ t.newbalance_org = 0 then 10 else 0)
    + (if t.amount ≥ min_amount then 10 else 0)

/-- The sum of the points of the triggered rules among R1-R6. -/
def rule_sum (kpi : AccountKPI) (s : DetectResult) : Int :=
  (if trig_r1 kpi s then 25 else 0) + (if trig_r2 kpi s then 20 else 0)
  + (if trig_r3 s then 25 else 0) + (if trig_r4 s then 10 else 0)
  + (if trig_r5 kpi then 25 else 0) + (if trig_r6 kpi then 10 else 0)

/-! ### Concrete inputs used by counterexamples and witnesses -/

/-- All-zero KPI record (end-to-end scenario 3 of the spec). -/
def kpi_zero : AccountKPI := ⟨"C1", 1, 200, ⟨0, 0, 0, 0⟩, ⟨0, 0, 0⟩, []⟩

/-- Empty detection result with the default parameters. -/
def detect_empty : DetectResult :=
  ⟨"C1", 200000, 10, 10, [], "Règles simples de démo (pas de ML)."⟩

/-- KPI record of end-to-end scenario 1 of the spec. -/
def kpi_scenario1 : AccountKPI := ⟨"C1", 1, 200, ⟨1, 500000, 500000, 0⟩, ⟨0, 0, 0⟩, []⟩

/-- Transaction of end-to-end scenario 4 of the spec: fraud label, drained
origin balance on a TRANSFER, amount above the threshold. -/
def tx_scenario4 : Transaction :=
  ⟨101, 5, "TRANSFER", 300000, "C1", 1000, 0, "C2", 0, 300000, true, false⟩

/-- A three-row transactions table: two detector candidates for account "A"
(a TRANSFER of 300000 and a CASH_OUT of 400000) and one non-candidate
(a PAYMENT, whose type is not risk-flagged). -/
def dbW : List Transaction :=
  [⟨1, 3, "TRANSFER", 300000, "A", 500000, 200000, "B", 0, 300000, false, false⟩,
   ⟨2, 4, "CASH_OUT", 400000, "A", 400000, 0, "B", 0, 400000, true, false⟩,
   ⟨3, 5, "PAYMENT", 900000, "A", 900000, 0, "B", 0, 900000, false, false⟩]

/-! ### Helper lemmas -/

theorem ite_add_shift (c : Prop) [Decidable c] (x p : Int) :
    (if c then x + p else x) = x + (if c then p else 0) := by
  split_ifs <;> omega

theorem ite_pts_mono {p q : Prop} [Decidable p] [Decidable q] (c : Int)
    (hc : 0 ≤ c) (h : p → q) : (if p then c else 0) ≤ (if q then c else 0) := by
  split_ifs with hp hq
  · exact le_rfl
  · exact absurd (h hp) hq
  · exact hc
  · exact le_rfl

theorem tx_points_of_nonneg (tx : Option Transaction) (m : ℚ) :
    0 ≤ tx_points_of tx m := by
  cases tx with
  | none => simp [tx_points_of]
  | some t => simp only [tx_points_of]; split_ifs <;> omega

/-- The R7 term of the accumulated score is `min tx_points 20`, whether or
not the rule triggered (when it did not, `tx_points = 0` and both sides
are `0`). -/
theorem tx_contrib_eq (tx : Option Transaction) (m : ℚ) :
    (if tx.isSome ∧ tx_points_of tx m > 0 then min (tx_points_of tx m) 20 else 0)
      = min (tx_points_of tx m) 20 := by
  cases tx with
  | none => simp [tx_points_of]
  | some t =>
    by_cases h : tx_points_of (some t) m > 0
    · simp [h]
    · have h0 : tx_points_of (some t) m = 0 :=
        le_antisymm (not_lt.mp h) (tx_points_of_nonneg _ _)
      simp [h, h0]

/-- Shape of the accumulated score of `build_insights`: the saturating `min`
of the rule-point sum (R1-R6 plus the capped R7 term) with 100. -/
theorem build_insights_score_eq (kpi : AccountKPI) (s : DetectResult)
    (tx : Option Transaction) :
    (build_insights kpi s tx).score =
      min (rule_sum kpi s
        + (if tx.isSome ∧ tx_points_of tx (eff_min_amount s) > 0
           then min (tx_points_of tx (eff_min_amount s)) 20 else 0)) 100 := by
  cases tx with
  | none =>
    simp only [build_insights, add_rule, ite_add_shift, decide_eq_true_eq,
      rule_sum, trig_r1, trig_r2, trig_r3, trig_r4, trig_r5, trig_r6,
      eff_min_amount, tx_points_of, Option.isSome_none]
    congr 1
    simp
  | some t =>
    simp only [build_insights, add_rule, ite_add_shift, decide_eq_true_eq,
      rule_sum, trig_r1, trig_r2, trig_r3, trig_r4, trig_r5, trig_r6,
      eff_min_amount, tx_points_of, Option.isSome_some]
    congr 1
    simp

/-- The sum of the `points` fields over the breakdown equals the raw
(unclamped) accumulated score. -/
theorem build_insights_points_sum (kpi : AccountKPI) (s : DetectResult)
    (tx : Option Transaction) :
    (((build_insights kpi s tx).breakdown.map BreakdownEntry.points).sum)
      = rule_sum kpi s
        + (if tx.isSome ∧ tx_points_of tx (eff_min_amount s) > 0
           then min (tx_points_of tx (eff_min_amount s)) 20 else 0) := by
  cases tx with
  | none =>
    simp only [build_insights, add_rule, decide_eq_true_eq, rule_sum,
      trig_r1, trig_r2, trig_r3, trig_r4, trig_r5, trig_r6, eff_min_amount,
      tx_points_of, Option.isSome_none, List.nil_append, List.append_assoc,
      List.map_append, List.sum_append, List.map_cons, List.map_nil,
      List.sum_cons, List.sum_nil]
    ring
  | some t =>
    simp only [build_insights, add_rule, decide_eq_true_eq, rule_sum,
      trig_r1, trig_r2, trig_r3, trig_r4, trig_r5, trig_r6, eff_min_amount,
      tx_points_of, Option.isSome_some, List.nil_append, List.append_assoc,
      List.map_append, List.sum_append, List.map_cons, List.map_nil,
      List.sum_cons, List.sum_nil]
    ring

/-! ### Claims -/

/-- C1: for every KPI record, detection result and optional transaction, the
scoring engine's score is an integer in `[0, 100]`: the rule points are
accumulated by addition and the total is saturated at 100 (never wraps or
exceeds it). -/
theorem c1_score_bounded (kpi : AccountKPI) (s : DetectResult)
    (tx : Option Transaction) :
    0 ≤ (build_insights kpi s tx).score ∧ (build_insights kpi s tx).score ≤ 100 := by
  rw [build_insights_score_eq]
  refine ⟨le_min ?_ (by norm_num), min_le_right _ _⟩
  have h7 := tx_points_of_nonneg tx (eff_min_amount s)
  unfold rule_sum
  split_ifs <;> omega

/-- C2 (counterexample): with the all-zero KPI, an empty detection result and
NO transaction supplied, the breakdown still has 7 entries, not the 6 the
claim requires — `build_insights` appends the R7 entry unconditionally
(app.py lines 341-346 run outside the `if tx:` block). -/
theorem c2_counterexample :
    (build_insights kpi_zero detect_empty none).breakdown.length = 7 := by decide

/-- C2 (amended): the breakdown always has exactly seven entries — one per
rule R1-R6 plus one for R7 even when no transaction is supplied; in that case
the R7 entry is untriggered, carries 0 points and an empty explanation. -/
theorem c2_breakdown_entries (kpi : AccountKPI) (s : DetectResult)
    (tx : Option Transaction) :
    (build_insights kpi s tx).breakdown.length = 7
    ∧ (build_insights kpi s none).breakdown.getLast?
      = some ⟨"Signal sur la transaction consultée", 0, false, ""⟩ := by
  constructor
  · cases tx <;> simp [build_insights, add_rule]
  · simp [build_insights, add_rule, tx_points_of]
    decide

/-- C3 (end-to-end scenario 1): on the KPI with one outgoing transaction of
500000 (avg 500000, no fraud), no incoming flow, an empty match list at
threshold 200000, and no transaction, exactly R1 (25), R2 (20) and R6 (10)
fire, the score is 55 and the title carries the "Modéré" tier. -/
theorem c3_scenario1 :
    (build_insights kpi_scenario1 detect_empty none).score = 55
    ∧ (build_insights kpi_scenario1 detect_empty none).breakdown.map
        (fun e => (e.points, e.triggered))
      = [(25, true), (20, true), (0, false), (0, false), (0, false), (10, true), (0, false)]
    ∧ (build_insights kpi_scenario1 detect_empty none).title
      = "Risque global: **Modéré** (score 55/100)"
    ∧ risk_label 55 = "Modéré" := by decide

/-- C4: when a transaction is supplied, R7 contributes exactly
`min tx_points 20` to the saturated score — the sub-point total (15 fraud
label + 10 balance drain + 10 high amount) is capped at 20 before being added
— and a transaction satisfying all three sub-conditions has sub-total 35,
capped to a contribution of exactly 20. -/
theorem c4_tx_rule_capped (kpi : AccountKPI) (s : DetectResult) (t : Transaction) :
    (build_insights kpi s (some t)).score
      = min (rule_sum kpi s + min (tx_points_of (some t) (eff_min_amount s)) 20) 100
    ∧ (t.is_fraud = true
        ∧ (py_upper t.type = "TRANSFER" ∨ py_upper t.type = "CASH_OUT")
        ∧ t.oldbalance_org > 0 ∧ t.newbalance_org = 0
        ∧ t.amount ≥ eff_min_amount s →
        tx_points_of (some t) (eff_min_amount s) = 35
        ∧ min (tx_points_of (some t) (eff_min_amount s)) 20 = 20) := by
  constructor
  · rw [build_insights_score_eq, tx_contrib_eq]
  · rintro ⟨hf, hd, hob, hnb, ha⟩
    have h35 : tx_points_of (some t) (eff_min_amount s) = 35 := by
      simp [tx_points_of, hf, hd, hob, hnb, ha]
    exact ⟨h35, by rw [h35]; norm_num⟩

/-- Witness for C4 at end-to-end scenario 4: the fully-qualifying transaction
has sub-total 35, contributes 20, and on the all-zero KPI the score is the
capped R7 contribution. -/
theorem c4_tx_rule_capped_witness :
    (build_insights kpi_zero detect_empty (some tx_scenario4)).score
      = min (rule_sum kpi_zero detect_empty
          + min (tx_points_of (some tx_scenario4) (eff_min_amount detect_empty)) 20) 100
    ∧ tx_points_of (some tx_scenario4) (eff_min_amount detect_empty) = 35
    ∧ min (tx_points_of (some tx_scenario4) (eff_min_amount detect_empty)) 20 = 20 :=
  ⟨(c4_tx_rule_capped kpi_zero detect_empty tx_scenario4).1,
   ((c4_tx_rule_capped kpi_zero detect_empty tx_scenario4).2 (by decide)).1,
   ((c4_tx_rule_capped kpi_zero detect_empty tx_scenario4).2 (by decide)).2⟩

/-- C10: the output is internally consistent — every untriggered breakdown
entry carries 0 points, and the score equals `min 100 (sum of the points
fields)`. -/
theorem c10_breakdown_consistent (kpi : AccountKPI) (s : DetectResult)
    (tx : Option Transaction) :
    (∀ e ∈ (build_insights kpi s tx).breakdown, e.triggered = false → e.points = 0)
    ∧ (build_insights kpi s tx).score
      = min 100 (((build_insights kpi s tx).breakdown.map BreakdownEntry.points).sum) := by
  constructor
  · intro e he hf
    cases tx <;>
      (simp only [build_insights, add_rule, List.nil_append, List.append_assoc,
         List.cons_append, List.singleton_append, List.mem_cons,
         List.mem_singleton, List.not_mem_nil, or_false] at he
       rcases he with rfl | rfl | rfl | rfl | rfl | rfl | rfl <;> simp_all)
  · rw [build_insights_points_sum, build_insights_score_eq, min_comm]

/-- Witness for C10 at scenario 1: the R3 entry is untriggered with 0 points
and the score equation evaluates to 55. -/
theorem c10_breakdown_consistent_witness :
    ((build_insights kpi_scenario1 detect_empty none).breakdown.get? 2
        = some ⟨"Au moins 1 match détecté", 0, false,
            "≥ 1 transaction sortante ≥ 200000 € dans une fenêtre de 10 steps"⟩)
    ∧ (build_insights kpi_scenario1 detect_empty none).score
      = min 100 (((build_insights kpi_scenario1 detect_empty none).breakdown.map
          BreakdownEntry.points).sum) :=
  ⟨by decide, (c10_breakdown_consistent kpi_scenario1 detect_empty none).2⟩

/-- C7: the score is monotone in the triggered-rule set — if every rule
triggered on the first input is triggered on the second and the R7 sub-point
total does not decrease, the score does not decrease. -/
theorem c7_score_monotone (kpi1 : AccountKPI) (s1 : DetectResult)
    (tx1 : Option Transaction) (kpi2 : AccountKPI) (s2 : DetectResult)
    (tx2 : Option Transaction)
    (h1 : trig_r1 kpi1 s1 → trig_r1 kpi2 s2)
    (h2 : trig_r2 kpi1 s1 → trig_r2 kpi2 s2)
    (h3 : trig_r3 s1 → trig_r3 s2)
    (h4 : trig_r4 s1 → trig_r4 s2)
    (h5 : trig_r5 kpi1 → trig_r5 kpi2)
    (h6 : trig_r6 kpi1 → trig_r6 kpi2)
    (h7 : tx_points_of tx1 (eff_min_amount s1) ≤ tx_points_of tx2 (eff_min_amount s2)) :
    (build_insights kpi1 s1 tx1).score ≤ (build_insights kpi2 s2 tx2).score := by
  rw [build_insights_score_eq, build_insights_score_eq, tx_contrib_eq, tx_contrib_eq]
  refine min_le_min (add_le_add ?_ (min_le_min h7 le_rfl)) le_rfl
  unfold rule_sum
  exact add_le_add (add_le_add (add_le_add (add_le_add (add_le_add
    (ite_pts_mono 25 (by norm_num) h1) (ite_pts_mono 20 (by norm_num) h2))
    (ite_pts_mono 25 (by norm_num) h3)) (ite_pts_mono 10 (by norm_num) h4))
    (ite_pts_mono 25 (by norm_num) h5)) (ite_pts_mono 10 (by norm_num) h6)

/-- Witness for C7: moving from the all-zero input (score 0) to scenario 1
(score 55) triggers a superset of rules, and the score does not decrease. -/
theorem c7_score_monotone_witness :
    (build_insights kpi_zero detect_empty none).score
      ≤ (build_insights kpi_scenario1 detect_empty none).score :=
  c7_score_monotone kpi_zero detect_empty none kpi_scenario1 detect_empty none
    (fun _ => by decide) (fun _ => by decide) id id
    (fun h => absurd h (by decide)) (fun _ => by decide) (by decide)

/-- C5: whenever the candidate set (outgoing transactions of the account with
amount at or above the threshold and a risk-flagged type) has more than
`max_rows` elements, the detector returns exactly `max_rows` matches, ordered
by amount descending, and their amounts are the `max_rows` largest among the
candidates (the remaining candidate amounts are all ≤ every returned one). -/
theorem c5_truncation (db : List Transaction) (name : String) (min_amount : ℚ)
    (window_steps : Int) (max_rows : Nat) (hmr : 1 ≤ max_rows)
    (hlen : max_rows < (detect_candidates db name min_amount).length) :
    (tool_detect_suspicious db name min_amount window_steps max_rows).«matches».length = max_rows
    ∧ List.Pairwise (fun a b : MatchRow => b.amount ≤ a.amount)
        (tool_detect_suspicious db name min_amount window_steps max_rows).«matches»
    ∧ ∃ rest : List ℚ,
        List.Perm
          ((tool_detect_suspicious db name min_amount window_steps max_rows).«matches».map
            MatchRow.amount ++ rest)
          ((detect_candidates db name min_amount).map Transaction.amount)
        ∧ ∀ a ∈ (tool_detect_suspicious db name min_amount window_steps
              max_rows).«matches».map MatchRow.amount,
            ∀ b ∈ rest, b ≤ a := by
  have hsorted : List.Pairwise amount_desc
      (List.insertionSort amount_desc (detect_candidates db name min_amount)) :=
    List.sorted_insertionSort amount_desc (detect_candidates db name min_amount)
  have hperm : List.Perm
      (List.insertionSort amount_desc (detect_candidates db name min_amount))
      (detect_candidates db name min_amount) :=
    List.perm_insertionSort amount_desc (detect_candidates db name min_amount)
  set sorted := List.insertionSort amount_desc (detect_candidates db name min_amount)
    with hsdef
  have hslen : sorted.length = (detect_candidates db name min_amount).length :=
    hperm.length_eq
  have hmap : (tool_detect_suspicious db name min_amount window_steps
      max_rows).«matches».map MatchRow.amount
      = (sorted.take max_rows).map Transaction.amount := by
    simp only [tool_detect_suspicious, List.map_map]
    rfl
  have hpa : List.Pairwise amount_desc (sorted.take max_rows ++ sorted.drop max_rows) := by
    rw [List.take_append_drop]; exact hsorted
  refine ⟨?_, ?_, ?_⟩
  · simp only [tool_detect_suspicious, List.length_map, List.length_take]
    rw [← hsdef]
    omega
  · simp only [tool_detect_suspicious, List.pairwise_map]
    exact hsorted.sublist (List.take_sublist _ _)
  · refine ⟨(sorted.drop max_rows).map Transaction.amount, ?_, ?_⟩
    · rw [hmap, ← List.map_append, List.take_append_drop]
      exact hperm.map Transaction.amount
    · intro a ha b hb
      rw [hmap] at ha
      obtain ⟨x, hxmem, rfl⟩ := List.mem_map.mp ha
      obtain ⟨y, hymem, rfl⟩ := List.mem_map.mp hb
      exact (List.pairwise_append.mp hpa).2.2 x hxmem y hymem

/-- Witness for C5 on the three-row table `dbW`: account "A" has two
candidates above 200000 but `max_rows = 1`, so exactly the largest one
(the 400000 CASH_OUT) is returned. -/
theorem c5_truncation_witness :
    (tool_detect_suspicious dbW "A" 200000 10 1).«matches».length = 1
    ∧ List.Pairwise (fun a b : MatchRow => b.amount ≤ a.amount)
        (tool_detect_suspicious dbW "A" 200000 10 1).«matches»
    ∧ ∃ rest : List ℚ,
        List.Perm
          ((tool_detect_suspicious dbW "A" 200000 10 1).«matches».map MatchRow.amount ++ rest)
          ((detect_candidates dbW "A" 200000).map Transaction.amount)
        ∧ ∀ a ∈ (tool_detect_suspicious dbW "A" 200000 10 1).«matches».map MatchRow.amount,
            ∀ b ∈ rest, b ≤ a :=
  c5_truncation dbW "A" 200000 10 1 (by decide) (by decide)

/-- C6: `window_steps` is dead as a filter — two detector calls differing only
in `window_steps` return identical match lists, and each call echoes its own
`window_steps` argument unchanged in the output. -/
theorem c6_window_steps_inert (db : List Transaction) (name : String)
    (min_amount : ℚ) (w1 w2 : Int) (max_rows : Nat) :
    (tool_detect_suspicious db name min_amount w1 max_rows).«matches»
      = (tool_detect_suspicious db name min_amount w2 max_rows).«matches»
    ∧ (tool_detect_suspicious db name min_amount w1 max_rows).window_steps = w1 :=
  ⟨rfl, rfl⟩

/-- C8 (counterexample): a resource read for an unknown ACCOUNT does not
return a "not found"-marked result — it returns an ordinary zero-valued
account aggregate (the account branch of `resource_read` has no found flag).
The empty table makes "C999" unknown. -/
theorem c8_counterexample :
    resource_read [] "account/C999"
      = Except.ok (ResourceResult.account "C999" 0 0 0 0 0)
    ∧ is_not_found_result (ResourceResult.account "C999" 0 0 0 0 0) = false := by
  decide

/-- C8 (amended): a transaction lookup whose id matches no row returns the
explicit `{"id": …, "found": False}` result without raising; an account
lookup for a name appearing in no row also does not raise, but returns a
zero-valued account aggregate rather than a "not found" marker. -/
theorem c8_not_found_behavior (db : List Transaction) (uri : String) (tx_id : Nat) :
    (uri.data.take 8 ≠ "account/".data →
     uri.data.take 12 = "transaction/".data →
     py_int (uri.data.drop 12) = some tx_id →
     (∀ t ∈ db, t.id ≠ tx_id) →
     resource_read db uri = Except.ok (ResourceResult.txNotFound tx_id))
    ∧ (uri.data.take 8 = "account/".data →
       (∀ t ∈ db, t.name_orig ≠ String.mk (uri.data.drop 8)) →
       (∀ t ∈ db, t.name_dest ≠ String.mk (uri.data.drop 8)) →
       resource_read db uri
         = Except.ok (ResourceResult.account (String.mk (uri.data.drop 8)) 0 0 0 0 0)) := by
  constructor
  · intro hna ht hp hnone
    have hfind : db.find? (fun t => decide (t.id = tx_id)) = none := by
      rw [List.find?_eq_none]
      intro x hx
      simpa using hnone x hx
    simp only [resource_read, if_neg hna, if_pos ht, hp, hfind]
  · intro ha ho hd
    have hof : db.filter (fun t => decide (t.name_orig = String.mk (uri.data.drop 8))) = [] := by
      rw [List.filter_eq_nil_iff]
      intro x hx
      simpa using ho x hx
    have hdf : db.filter (fun t => decide (t.name_dest = String.mk (uri.data.drop 8))) = [] := by
      rw [List.filter_eq_nil_iff]
      intro x hx
      simpa using hd x hx
    simp only [resource_read, if_pos ha, hof, hdf, List.length_nil, List.map_nil,
      List.sum_nil, List.filter_nil]

/-- Witness for C8: on `dbW` (ids 1-3, accounts "A"/"B"), reading transaction
99 yields the found-false result and reading account "C999" yields the
zero-valued aggregate. -/
theorem c8_not_found_behavior_witness :
    resource_read dbW "transaction/99" = Except.ok (ResourceResult.txNotFound 99)
    ∧ resource_read dbW "account/C999"
      = Except.ok (ResourceResult.account "C999" 0 0 0 0 0) :=
  ⟨(c8_not_found_behavior dbW "transaction/99" 99).1
      (by decide) (by decide) (by decide) (by decide),
   (c8_not_found_behavior dbW "account/C999" 99).2
      (by decide) (by decide) (by decide)⟩

/-- C9: the KPI averages are guarded divisions — each `avg` field equals
`total / count` when the corresponding count is positive and is exactly `0`
when the count is `0`; no division error can occur. -/
theorem c9_avg_guarded (db : List Transaction) (name : String)
    (step_from step_to : Int) :
    ((0 < (tool_get_account_kpi db name step_from step_to).out.nb_out →
      (tool_get_account_kpi db name step_from step_to).out.avg_out_amount
        = (tool_get_account_kpi db name step_from step_to).out.total_out
          / (((tool_get_account_kpi db name step_from step_to).out.nb_out : Int) : ℚ))
     ∧ ((tool_get_account_kpi db name step_from step_to).out.nb_out = 0 →
        (tool_get_account_kpi db name step_from step_to).out.avg_out_amount = 0))
    ∧ ((0 < (tool_get_account_kpi db name step_from step_to).«in».nb_in →
        (tool_get_account_kpi db name step_from step_to).«in».avg_in_amount
          = (tool_get_account_kpi db name step_from step_to).«in».total_in
            / (((tool_get_account_kpi db name step_from step_to).«in».nb_in : Int) : ℚ))
       ∧ ((tool_get_account_kpi db name step_from step_to).«in».nb_in = 0 →
          (tool_get_account_kpi db name step_from step_to).«in».avg_in_amount = 0)) := by
  simp only [tool_get_account_kpi]
  refine ⟨⟨?_, ?_⟩, ⟨?_, ?_⟩⟩
  · intro h
    split_ifs with h0
    · rw [h0] at h; simp at h
    · norm_cast
  · intro h
    split_ifs with h0
    · rfl
    · exact absurd (by exact_mod_cast h) h0
  · intro h
    split_ifs with h0
    · rw [h0] at h; simp at h
    · norm_cast
  · intro h
    split_ifs with h0
    · rfl
    · exact absurd (by exact_mod_cast h) h0

/-- Witness for C9 on `dbW`, account "A": three outgoing rows (positive
count, average equals total over count) and zero incoming rows (average is
exactly 0). -/
theorem c9_avg_guarded_witness :
    0 < (tool_get_account_kpi dbW "A" 1 200).out.nb_out
    ∧ (tool_get_account_kpi dbW "A" 1 200).out.avg_out_amount
      = (tool_get_account_kpi dbW "A" 1 200).out.total_out
        / (((tool_get_account_kpi dbW "A" 1 200).out.nb_out : Int) : ℚ)
    ∧ (tool_get_account_kpi dbW "A" 1 200).«in».nb_in = 0
    ∧ (tool_get_account_kpi dbW "A" 1 200).«in».avg_in_amount = 0 :=
  ⟨by decide,
   (c9_avg_guarded dbW "A" 1 200).1.1 (by decide),
   by decide,
   (c9_avg_guarded dbW "A" 1 200).2.2 (by decide)⟩

end PaySim
